import Mathlib

/-!
Shallow embedding of `src/main.rs` of the `spotify-me` service.

The service exposes three read-only HTTP endpoints:
  * `GET /`        — `data` handler: top tracks over three time windows,
                     behind a fill-once process cache (`DATA_CACHE : OnceLock`);
  * `GET /playing` — `currently_playing` handler;
  * `GET /recent`  — `recently_played` handler.

Upstream I/O (the rspotify client calls) is modelled by passing the upstream
responses as explicit oracle arguments.  Each handler returns an `Outcome`:
`ok` for `Ok(response)`, `err` for `Err(String)` (the Rust handlers return
`Result<Response, String>`), and `abort` for a panic (`Option::unwrap` on
`None`, or the `unreachable!` macro).

Machine integers: chrono `Duration` values are represented by their
(non-negative) count of milliseconds as a `Nat`; `num_seconds` is integer
division by 1000, and Rust's `as u32` cast is reduction modulo `2^32`.
Timestamps (`DateTime<Utc>`) are represented by integers ordered as the
Rust `Ord` instance orders them.  Opaque values passed through unchanged
(`Device`, `Context`) are represented by `String`.
-/

namespace SpotifyMe

/-- Rust's `as u32` cast on a non-negative integer: reduction modulo `2^32`. -/
def u32_cast (n : Nat) : Nat := n % 2 ^ 32

/-- chrono `Duration::num_seconds` on a non-negative duration held as
milliseconds: integer division by 1000 (floor). -/
def num_seconds (ms : Nat) : Nat := ms / 1000

/-- The panic message of `Option::unwrap` on `None`. -/
def unwrapNoneMsg : String := "called Option::unwrap() on a None value"

/-- rspotify `Image`: only the `url` field is consumed by this program. -/
structure Image where
  url : String
  deriving Repr, DecidableEq

/-- rspotify `SimplifiedArtist` as consumed by `full_track_to_simple`:
`name` and the `external_urls` map (association list keyed by provider). -/
structure SimplifiedArtist where
  name : String
  external_urls : List (String × String)
  deriving Repr, DecidableEq

/-- The album of a `FullTrack`: only its `images` list is consumed. -/
structure SimplifiedAlbum where
  images : List Image
  deriving Repr, DecidableEq

/-- rspotify `FullTrack` as consumed by this program.  `duration` is the
chrono `Duration` field (`duration_ms` on the wire), held as milliseconds. -/
structure FullTrack where
  name : String
  artists : List SimplifiedArtist
  album : SimplifiedAlbum
  external_urls : List (String × String)
  duration : Nat
  deriving Repr, DecidableEq

/-- `SimpleArtist` from `main.rs`. -/
structure SimpleArtist where
  name : String
  url : Option String
  deriving Repr, DecidableEq

/-- `SimpleTrack` from `main.rs`; `duration` is a `u32` count of whole
seconds. -/
structure SimpleTrack where
  name : String
  artists : List SimpleArtist
  image_url : Option String
  url : Option String
  duration : Nat
  deriving Repr, DecidableEq

/-- `HashMap::get("spotify").cloned()` on the `external_urls` map, modelled
as first-match lookup in the association list. -/
def getSpotifyUrl (m : List (String × String)) : Option String :=
  m.lookup "spotify"

/-- `full_track_to_simple` from `main.rs` (lines 205-225), translated
field by field. -/
def full_track_to_simple (full_track : FullTrack) : SimpleTrack :=
  { name := full_track.name
    artists := full_track.artists.map fun artist =>
      { name := artist.name
        url := getSpotifyUrl artist.external_urls }
    image_url := (full_track.album.images.head?).map Image.url
    url := getSpotifyUrl full_track.external_urls
    duration := u32_cast (num_seconds full_track.duration) }

/-- rspotify `RepeatState`. -/
inductive RepeatState where
  | off
  | track
  | context
  deriving Repr, DecidableEq

/-- rspotify `PlayableId`: a track id or an episode id. -/
inductive PlayableId where
  | track (id : String)
  | episode (id : String)
  deriving Repr, DecidableEq

/-- rspotify `PlayableItem`.  Its `id()` method returns an `Option`:
a track's own id field is itself optional (`FullTrack.id : Option<TrackId>`,
absent e.g. for local files), while an episode always carries an id. -/
inductive PlayableItem where
  | track (id : Option String)
  | episode (id : String)
  deriving Repr, DecidableEq

/-- `PlayableItem::id()`. -/
def PlayableItem.getId : PlayableItem → Option PlayableId
  | .track o => o.map PlayableId.track
  | .episode i => some (PlayableId.episode i)

/-- rspotify `CurrentPlaybackContext` as consumed by `currently_playing`:
device, optional context, repeat state, shuffle flag, the `is_playing`
flag, the optional playable item and the optional progress (milliseconds). -/
structure CurrentPlaybackContext where
  device : String
  context : Option String
  repeat_state : RepeatState
  shuffle_state : Bool
  is_playing : Bool
  item : Option PlayableItem
  progress : Option Nat
  deriving Repr, DecidableEq

/-- `Playing` from `main.rs`. -/
structure Playing where
  device : String
  context : Option String
  «repeat» : RepeatState
  shuffled : Bool
  playing : SimpleTrack
  progress_secs : Nat
  deriving Repr, DecidableEq

/-- `LastPlayed` from `main.rs`; `played_at` is the timestamp. -/
structure LastPlayed where
  track : SimpleTrack
  context : Option String
  played_at : Int
  deriving Repr, DecidableEq

/-- rspotify `PlayHistory`: a played track, its optional context and its
`played_at` timestamp. -/
structure PlayHistory where
  track : FullTrack
  context : Option String
  played_at : Int
  deriving Repr, DecidableEq

/-- `Data` from `main.rs`: the three top-track windows. -/
structure Data where
  short_term_top : List SimpleTrack
  mid_term_top : List SimpleTrack
  long_term_top : List SimpleTrack
  deriving Repr, DecidableEq

/-- The `headers::CacheControl` value a handler attaches to a response:
the `no-cache` and `no-store` flags and the optional `max-age` (seconds). -/
structure CacheControl where
  noCache : Bool
  noStore : Bool
  maxAge : Option Nat
  deriving Repr, DecidableEq

/-- `CacheControl::new().with_no_cache().with_no_store()`. -/
def noCacheNoStore : CacheControl := ⟨true, true, none⟩

/-- `CacheControl::new().with_max_age(secs)`. -/
def maxAgeHeader (secs : Nat) : CacheControl := ⟨false, false, some secs⟩

/-- The result of running a Rust handler body: a successful response,
an `Err(String)` return, or a panic (`unwrap` on `None` / `unreachable!`). -/
inductive Outcome (α : Type) where
  | ok : α → Outcome α
  | err : String → Outcome α
  | abort : String → Outcome α
  deriving Repr, DecidableEq

/-- The `/playing` response: JSON body `Option<Playing>` and the
`Cache-Control` header, which the handler only sets on the playing branch. -/
structure PlayingResponse where
  body : Option Playing
  cacheControl : Option CacheControl
  deriving Repr, DecidableEq

/-- The `/` response: JSON body `Data` and its `Cache-Control` header. -/
structure DataResponse where
  body : Data
  cacheControl : CacheControl
  deriving Repr, DecidableEq

/-- The `/recent` response: JSON body `Vec<LastPlayed>` and its
`Cache-Control` header. -/
structure RecentResponse where
  body : List LastPlayed
  cacheControl : CacheControl
  deriving Repr, DecidableEq

/-- `currently_playing` from `main.rs` (lines 118-158).  `playback` is the
result of `spotify.current_playback(...)` with the error already rendered
to a string by `map_err`; `lookup` is the `spotify.track(track_id, None)`
call, likewise with a string error.  Translated control flow:
 * upstream error → `Err` via `?`;
 * no playback snapshot → `Ok(Json(None))`, no cache header;
 * `is_playing == false` → `Ok(Json(None))`, no cache header;
 * `is_playing == true` → `item.unwrap()` then `.id().unwrap()` (panic on
   `None`), `unreachable!` on an episode id, track lookup (`?` on error),
   then `progress.unwrap()` (panic on `None`) inside the `Playing` literal,
   with the `no-cache, no-store` header attached. -/
def currently_playing
    (playback : Except String (Option CurrentPlaybackContext))
    (lookup : String → Except String FullTrack) : Outcome PlayingResponse :=
  match playback with
  | .error e => .err e
  | .ok none => .ok { body := none, cacheControl := none }
  | .ok (some cp) =>
    if cp.is_playing then
      match cp.item with
      | none => .abort unwrapNoneMsg
      | some item =>
        match item.getId with
        | none => .abort unwrapNoneMsg
        | some (.episode _) => .abort "Should never be playing an episode."
        | some (.track track_id) =>
          match lookup track_id with
          | .error e => .err e
          | .ok full_track =>
            match cp.progress with
            | none => .abort unwrapNoneMsg
            | some p =>
              .ok { body := some
                      { device := cp.device
                        context := cp.context
                        «repeat» := cp.repeat_state
                        shuffled := cp.shuffle_state
                        playing := full_track_to_simple full_track
                        progress_secs := u32_cast (num_seconds p) }
                    cacheControl := some noCacheNoStore }
    else .ok { body := none, cacheControl := none }

/-- `recently_played` from `main.rs` (lines 160-189).  `history` is the
result of `spotify.current_user_recently_played(Some(10), Some(before_now))`
with the error rendered to a string; its `items` are sorted with
`sort_unstable_by(|a, b| b.played_at.cmp(&a.played_at))` — i.e. by
`played_at` descending — then shaped, with a `max-age = 180` header. -/
def recently_played (history : Except String (List PlayHistory)) :
    Outcome RecentResponse :=
  match history with
  | .error e => .err e
  | .ok items =>
    let recent := items.mergeSort fun a b => decide (b.played_at ≤ a.played_at)
    .ok { body := recent.map fun his =>
            { track := full_track_to_simple his.track
              context := his.context
              played_at := his.played_at }
          cacheControl := maxAgeHeader (3 * 60) }

/-- One of rspotify's three `TimeRange` windows. -/
inductive TimeRange where
  | shortTerm
  | mediumTerm
  | longTerm
  deriving Repr, DecidableEq

/-- `futures_util::TryStreamExt::try_collect` on a stream of
`Result<FullTrack, _>` items: collect in order, stopping with the first
error if one occurs. -/
def tryCollect : List (Except String FullTrack) → Except String (List FullTrack)
  | [] => .ok []
  | .error e :: _ => .error e
  | .ok t :: rest => (tryCollect rest).map (t :: ·)

/-- `top_for_time_frame` from `main.rs` (lines 191-203): take the first
`num` items of the paginated `current_user_top_tracks` stream (each item a
`Result<FullTrack, _>`) and `try_collect` them.  `stream` is the sequence
of items the upstream stream would yield for this window. -/
def top_for_time_frame (num : Nat) (stream : List (Except String FullTrack)) :
    Except String (List FullTrack) :=
  tryCollect (stream.take num)

/-- An upstream oracle for one `/` request: the item stream each of the
three windows would yield. -/
abbrev Streams := TimeRange → List (Except String FullTrack)

/-- `data` from `main.rs` (lines 74-116), with the `DATA_CACHE : OnceLock`
made an explicit state (`none` = empty, `some d` = filled).  Returns the
state after the request, the handler outcome, and the list of windows
fetched during the request (`join!` drives all three fetches to completion
before any `?` fires, so a fill attempt always fetches all three windows;
a cache hit fetches none).  On the fill path the `?` operators surface the
short-term error first, then medium, then long; the cache is set only when
all three succeed. -/
def data (cache : Option Data) (streams : Streams) :
    Option Data × Outcome DataResponse × List TimeRange :=
  match cache with
  | some d => (some d, .ok { body := d, cacheControl := maxAgeHeader (24 * 60 * 60) }, [])
  | none =>
    let fetched := [TimeRange.shortTerm, TimeRange.mediumTerm, TimeRange.longTerm]
    match top_for_time_frame 10 (streams .shortTerm) with
    | .error e => (none, .err e, fetched)
    | .ok short_term_full =>
      match top_for_time_frame 10 (streams .mediumTerm) with
      | .error e => (none, .err e, fetched)
      | .ok mid_term_full =>
        match top_for_time_frame 10 (streams .longTerm) with
        | .error e => (none, .err e, fetched)
        | .ok long_term_full =>
          let d : Data :=
            { short_term_top := short_term_full.map full_track_to_simple
              mid_term_top := mid_term_full.map full_track_to_simple
              long_term_top := long_term_full.map full_track_to_simple }
          (some d, .ok { body := d, cacheControl := maxAgeHeader (24 * 60 * 60) }, fetched)

/-- A sequence of `/` requests, each against its own upstream oracle,
threading the cache state; returns the final state and the outcomes. -/
def dataRuns (cache : Option Data) :
    List Streams → Option Data × List (Outcome DataResponse)
  | [] => (cache, [])
  | s :: rest =>
    let step := data cache s
    let next := dataRuns step.1 rest
    (next.1, step.2.1 :: next.2)

/-- Whether an `Outcome` is an `Err` return. -/
def Outcome.isErr {α : Type} : Outcome α → Bool
  | .err _ => true
  | _ => false

/-- Whether an upstream call result is an error. -/
def isError {α : Type} : Except String α → Bool
  | .error _ => true
  | _ => false

/-- The three window lengths of a successful `/` response, `none` on a
non-`ok` outcome. -/
def bodyLengths : Outcome DataResponse → Option (Nat × Nat × Nat)
  | .ok r => some (r.body.short_term_top.length, r.body.mid_term_top.length,
                   r.body.long_term_top.length)
  | _ => none

/-! ### Concrete sample values used by witnesses and counterexamples -/

def sampleImage : Image := ⟨"https://img.example/cover.png"⟩

def sampleTrack : FullTrack :=
  { name := "song"
    artists := [⟨"artist", [("spotify", "https://artist.example")]⟩]
    album := ⟨[sampleImage]⟩
    external_urls := [("spotify", "https://track.example")]
    duration := 201500 }

def noImageTrack : FullTrack :=
  { name := "bare", artists := [], album := ⟨[]⟩, external_urls := [], duration := 1000 }

/-- A track whose duration in seconds does not fit in a `u32`. -/
def overflowTrack : FullTrack :=
  { name := "long", artists := [], album := ⟨[]⟩, external_urls := [],
    duration := 2 ^ 32 * 1000 }

def lookup0 : String → Except String FullTrack := fun _ => .error "lookup unavailable"

def lookupSample : String → Except String FullTrack := fun _ => .ok sampleTrack

def pausedCp : CurrentPlaybackContext :=
  { device := "dev", context := none, repeat_state := .off, shuffle_state := false,
    is_playing := false, item := none, progress := none }

def playingNoItemCp : CurrentPlaybackContext :=
  { device := "dev", context := none, repeat_state := .off, shuffle_state := false,
    is_playing := true, item := none, progress := some 1000 }

def episodeCp : CurrentPlaybackContext :=
  { device := "dev", context := none, repeat_state := .off, shuffle_state := false,
    is_playing := true, item := some (.episode "ep1"), progress := some 1000 }

def activeCp : CurrentPlaybackContext :=
  { device := "dev", context := some "ctx", repeat_state := .off, shuffle_state := false,
    is_playing := true, item := some (.track (some "trk1")), progress := some 65500 }

def noIdCp : CurrentPlaybackContext :=
  { device := "dev", context := none, repeat_state := .off, shuffle_state := false,
    is_playing := true, item := some (.track none), progress := some 1000 }

def noProgressCp : CurrentPlaybackContext :=
  { device := "dev", context := none, repeat_state := .off, shuffle_state := false,
    is_playing := true, item := some (.track (some "trk1")), progress := none }

/-- An upstream that yields no top tracks in any window. -/
def emptyStreams : Streams := fun _ => []

/-- An upstream that yields 11 successful items in every window. -/
def capStreams : Streams := fun _ => List.replicate 11 (Except.ok sampleTrack)

/-- An upstream whose short-term window fetch fails. -/
def failingStreams : Streams := fun tr =>
  match tr with
  | .shortTerm => [Except.error "boom"]
  | _ => []

/-- The response `currently_playing` produces for `activeCp` against
`lookupSample`: 65500 ms of progress shaped to 65 whole seconds. -/
def activeResponse : PlayingResponse :=
  { body := some
      { device := "dev", context := some "ctx", «repeat» := .off, shuffled := false,
        playing := full_track_to_simple sampleTrack, progress_secs := 65 }
    cacheControl := some noCacheNoStore }

/-! ### Claims about `full_track_to_simple` (C6, C8) -/

/-- C6 counterexample: the claim "for every track the shaped duration equals
floor(duration_ms / 1000)" fails for a track whose second count does not fit
in a `u32`: the `as u32` cast wraps, giving `0` instead of `2^32`. -/
theorem duration_truncation_cex :
    (full_track_to_simple overflowTrack).duration = 0 ∧
    (full_track_to_simple overflowTrack).duration ≠ overflowTrack.duration / 1000 := by
  constructor <;> decide

/-- C6 (amended): the shaped duration is `floor(duration_ms / 1000)` reduced
modulo `2^32` (the `as u32` cast); whenever that quotient fits in a `u32` —
in particular for every real track duration — it equals
`floor(duration_ms / 1000)` exactly, a non-negative whole number of seconds. -/
theorem duration_truncation (t : FullTrack) :
    (full_track_to_simple t).duration = t.duration / 1000 % 2 ^ 32 ∧
    (t.duration / 1000 < 2 ^ 32 →
      (full_track_to_simple t).duration = t.duration / 1000) := by
  exact ⟨rfl, fun h => Nat.mod_eq_of_lt h⟩

/-- Witness for C6: the amended statement evaluated on a concrete track of
201500 ms, shaped to 201 whole seconds. -/
theorem duration_truncation_witness :
    (full_track_to_simple sampleTrack).duration = sampleTrack.duration / 1000 % 2 ^ 32 ∧
    (full_track_to_simple sampleTrack).duration = sampleTrack.duration / 1000 :=
  ⟨(duration_truncation sampleTrack).1, (duration_truncation sampleTrack).2 (by decide)⟩

/-- C8: shaping never fails; a track with zero album images is shaped with
`image_url = none`, and when at least one image exists `image_url` is the
first image's URL. -/
theorem image_url_first_or_none (t : FullTrack) :
    (t.album.images = [] → (full_track_to_simple t).image_url = none) ∧
    (∀ img rest, t.album.images = img :: rest →
      (full_track_to_simple t).image_url = some img.url) := by
  constructor
  · intro h
    simp [full_track_to_simple, h]
  · intro img rest h
    simp [full_track_to_simple, h]

/-- Witness for C8: evaluated on a concrete imageless track and on a
concrete track with one image. -/
theorem image_url_first_or_none_witness :
    (full_track_to_simple noImageTrack).image_url = none ∧
    (full_track_to_simple sampleTrack).image_url = some "https://img.example/cover.png" := by
  refine ⟨(image_url_first_or_none noImageTrack).1 rfl, ?_⟩
  have h := (image_url_first_or_none sampleTrack).2 sampleImage [] rfl
  simpa [sampleImage] using h

/-! ### Claims about `currently_playing` (C1, C4, C9, C10) -/

/-- C1 counterexample: an upstream playback state with `is_playing = true`
and no item present makes the handler abort (panic on `unwrap`), so the
claim that every no-item state yields the JSON `null` body without error
or abort is false. -/
theorem playing_null_cex :
    currently_playing (.ok (some playingNoItemCp)) lookup0 = .abort unwrapNoneMsg ∧
    currently_playing (.ok (some playingNoItemCp)) lookup0 ≠
      .ok { body := none, cacheControl := none } := by
  constructor <;> decide

/-- C1 (amended): the handler returns the JSON `null` body, without error
or abort, whenever `is_playing` is false (regardless of the item) and
whenever upstream reports no playback snapshot at all; a state with
`is_playing = true` but no item instead aborts. -/
theorem playing_null_when_not_playing
    (playback : Except String (Option CurrentPlaybackContext))
    (lookup : String → Except String FullTrack)
    (h : playback = .ok none ∨
         ∃ cp, playback = .ok (some cp) ∧ cp.is_playing = false) :
    currently_playing playback lookup = .ok { body := none, cacheControl := none } := by
  rcases h with h | ⟨cp, h, hp⟩ <;> subst h
  · rfl
  · simp [currently_playing, hp]

/-- Witness for C1: the amended statement applied to the absent snapshot
and to a concrete paused state. -/
theorem playing_null_when_not_playing_witness :
    currently_playing (.ok none) lookup0 = .ok { body := none, cacheControl := none } ∧
    currently_playing (.ok (some pausedCp)) lookup0 =
      .ok { body := none, cacheControl := none } :=
  ⟨playing_null_when_not_playing (.ok none) lookup0 (.inl rfl),
   playing_null_when_not_playing (.ok (some pausedCp)) lookup0 (.inr ⟨pausedCp, rfl, rfl⟩)⟩

/-- C4 counterexample: the `null` success responses of `/playing` carry no
`Cache-Control` header at all — the handler only attaches
`no-cache, no-store` on the actively-playing branch — so the claim that
every successful response carries those directives is false. -/
theorem playing_cache_header_cex :
    currently_playing (.ok (some pausedCp)) lookup0 =
      .ok { body := none, cacheControl := none } ∧
    (none : Option CacheControl) ≠ some noCacheNoStore := by
  constructor <;> decide

/-- C4 (amended): a successful `/playing` response with an active track
carries exactly the `no-cache, no-store` directives, while the `null`
success responses carry no `Cache-Control` header. -/
theorem playing_cache_header
    (playback : Except String (Option CurrentPlaybackContext))
    (lookup : String → Except String FullTrack) (r : PlayingResponse)
    (h : currently_playing playback lookup = .ok r) :
    (r.body.isSome → r.cacheControl = some noCacheNoStore) ∧
    (r.body = none → r.cacheControl = none) := by
  unfold currently_playing at h
  split at h
  · exact absurd h (by simp)
  · cases h
    exact ⟨by simp, fun _ => rfl⟩
  · split at h
    · split at h
      · exact absurd h (by simp)
      · split at h
        · exact absurd h (by simp)
        · exact absurd h (by simp)
        · split at h
          · exact absurd h (by simp)
          · split at h
            · exact absurd h (by simp)
            · cases h
              exact ⟨fun _ => rfl, by simp⟩
    · cases h
      exact ⟨by simp, fun _ => rfl⟩

/-- Witness for C4: the amended statement applied to a concrete active
playback state whose response carries `no-cache, no-store`. -/
theorem playing_cache_header_witness :
    (some (full_track_to_simple sampleTrack) :
      Option SimpleTrack).isSome = true ∧
    activeResponse.cacheControl = some noCacheNoStore :=
  ⟨rfl, (playing_cache_header (.ok (some activeCp)) lookupSample activeResponse rfl).1 rfl⟩

/-- C9: when playback is active, an item whose id is an episode id hits the
`unreachable!` branch — a fatal abort with its invariant-violation message,
not a silently handled case — while under the precondition that the item is
a track, the episode abort can never occur (the handler may still return a
response, an upstream error, or a different panic, but never the episode
abort). -/
theorem episode_unreachable (cp : CurrentPlaybackContext)
    (lookup : String → Except String FullTrack) (item : PlayableItem)
    (hp : cp.is_playing = true) (hi : cp.item = some item) :
    (∀ eid, item = .episode eid →
      currently_playing (.ok (some cp)) lookup =
        .abort "Should never be playing an episode.") ∧
    (∀ oid, item = .track oid →
      currently_playing (.ok (some cp)) lookup ≠
        .abort "Should never be playing an episode.") := by
  constructor
  · intro eid he
    subst he
    simp [currently_playing, hp, hi, PlayableItem.getId]
  · intro oid ht
    subst ht
    simp only [currently_playing, hp, hi, PlayableItem.getId, if_true]
    cases oid with
    | none => simp [unwrapNoneMsg]
    | some tid =>
      simp only [Option.map_some']
      cases h : lookup tid with
      | error e => simp [h]
      | ok ft =>
        cases hq : cp.progress with
        | none => simp [h, hq, unwrapNoneMsg]
        | some p => simp [h, hq]

/-- Witness for C9: a concrete active episode state aborts with the
invariant message, and a concrete active track state does not. -/
theorem episode_unreachable_witness :
    currently_playing (.ok (some episodeCp)) lookup0 =
      .abort "Should never be playing an episode." ∧
    currently_playing (.ok (some activeCp)) lookupSample ≠
      .abort "Should never be playing an episode." :=
  ⟨(episode_unreachable episodeCp lookup0 (.episode "ep1") rfl rfl).1 "ep1" rfl,
   (episode_unreachable activeCp lookupSample (.track (some "trk1")) rfl rfl).2
     (some "trk1") rfl⟩

/-- C10: the handler is partial on active playback states: with
`is_playing = true` it panics on `unwrap` — rather than returning an error
response or `null` — when the item is absent, when the item's id is absent,
or when (after the track lookup succeeds) the progress field is absent. -/
theorem playing_partial_on_active (cp : CurrentPlaybackContext)
    (lookup : String → Except String FullTrack)
    (hp : cp.is_playing = true) :
    (cp.item = none →
      currently_playing (.ok (some cp)) lookup = .abort unwrapNoneMsg) ∧
    (∀ item, cp.item = some item → item.getId = none →
      currently_playing (.ok (some cp)) lookup = .abort unwrapNoneMsg) ∧
    (∀ item tid ft, cp.item = some item → item.getId = some (.track tid) →
      lookup tid = .ok ft → cp.progress = none →
      currently_playing (.ok (some cp)) lookup = .abort unwrapNoneMsg) := by
  refine ⟨fun hi => ?_, fun item hi hid => ?_, fun item tid ft hi hid hl hpr => ?_⟩
  · simp [currently_playing, hp, hi]
  · simp [currently_playing, hp, hi, hid]
  · simp [currently_playing, hp, hi, hid, hl, hpr]

/-- Witness for C10: the three panics exhibited on concrete active states:
missing item, missing track id, and missing progress. -/
theorem playing_partial_on_active_witness :
    currently_playing (.ok (some playingNoItemCp)) lookupSample = .abort unwrapNoneMsg ∧
    currently_playing (.ok (some noIdCp)) lookupSample = .abort unwrapNoneMsg ∧
    currently_playing (.ok (some noProgressCp)) lookupSample = .abort unwrapNoneMsg :=
  ⟨(playing_partial_on_active playingNoItemCp lookupSample rfl).1 rfl,
   (playing_partial_on_active noIdCp lookupSample rfl).2.1 (.track none) rfl rfl,
   (playing_partial_on_active noProgressCp lookupSample rfl).2.2 (.track (some "trk1"))
     "trk1" sampleTrack rfl rfl rfl rfl⟩

/-! ### Claim about `recently_played` (C5) -/

/-- C5: for every upstream recently-played response, in whatever order its
entries arrive, the sequence returned by `/recent` is sorted by `played_at`
descending: every adjacent pair `(a, b)` of the output satisfies
`a.played_at ≥ b.played_at`. -/
theorem recent_sorted_desc (history : Except String (List PlayHistory))
    (r : RecentResponse) (h : recently_played history = .ok r) :
    List.Chain' (fun a b : LastPlayed => a.played_at ≥ b.played_at) r.body := by
  cases history with
  | error e => exact absurd h (by simp [recently_played])
  | ok items =>
    simp only [recently_played] at h
    cases h
    apply List.Pairwise.chain'
    apply List.Pairwise.map
      (fun his : PlayHistory =>
        ({ track := full_track_to_simple his.track, context := his.context,
           played_at := his.played_at } : LastPlayed))
      (fun a b hab => of_decide_eq_true hab)
    apply List.sorted_mergeSort
    · intro a b c hab hbc
      simp only [decide_eq_true_eq] at hab hbc ⊢
      exact le_trans hbc hab
    · intro a b
      simp only [Bool.or_eq_true, decide_eq_true_eq]
      exact le_total b.played_at a.played_at

/-- Witness for C5: the sortedness statement applied to a concrete
one-entry history. -/
theorem recent_sorted_desc_witness :
    List.Chain' (fun a b : LastPlayed => a.played_at ≥ b.played_at)
      [{ track := full_track_to_simple sampleTrack, context := none, played_at := (5 : Int) }] :=
  recent_sorted_desc (.ok [{ track := sampleTrack, context := none, played_at := 5 }])
    { body := [{ track := full_track_to_simple sampleTrack, context := none,
                 played_at := 5 }]
      cacheControl := maxAgeHeader (3 * 60) }
    (by simp [recently_played])

/-! ### Claims about `data` and the fill-once cache (C2, C3, C7) -/

/-- A cache hit serves the stored snapshot unchanged, fetching nothing. -/
theorem data_cached (d : Data) (s : Streams) :
    data (some d) s =
      (some d, .ok { body := d, cacheControl := maxAgeHeader (24 * 60 * 60) }, []) := rfl

/-- A successful `/` request leaves the cache holding exactly the body it
served, and serves it with the 24-hour cache header. -/
theorem data_ok_shape (cache : Option Data) (s : Streams) (r : DataResponse)
    (h : (data cache s).2.1 = .ok r) :
    (data cache s).1 = some r.body ∧ r.cacheControl = maxAgeHeader (24 * 60 * 60) := by
  cases cache with
  | some d =>
    rw [data_cached] at h ⊢
    simp only [Outcome.ok.injEq] at h
    subst h
    exact ⟨rfl, rfl⟩
  | none =>
    cases hs : top_for_time_frame 10 (s .shortTerm) with
    | error e => simp [data, hs] at h
    | ok short_term_full =>
      cases hm : top_for_time_frame 10 (s .mediumTerm) with
      | error e => simp [data, hs, hm] at h
      | ok mid_term_full =>
        cases hl : top_for_time_frame 10 (s .longTerm) with
        | error e => simp [data, hs, hm, hl] at h
        | ok long_term_full =>
          simp only [data, hs, hm, hl, Outcome.ok.injEq] at h ⊢
          subst h
          exact ⟨rfl, rfl⟩

/-- Every request served from a filled cache returns the stored snapshot
and leaves the cache untouched, for any number of requests. -/
theorem dataRuns_cached (d : Data) (ss : List Streams) :
    (dataRuns (some d) ss).1 = some d ∧
    ∀ o ∈ (dataRuns (some d) ss).2,
      o = .ok { body := d, cacheControl := maxAgeHeader (24 * 60 * 60) } := by
  induction ss with
  | nil => exact ⟨rfl, by simp [dataRuns]⟩
  | cons s rest ih =>
    have hstep : dataRuns (some d) (s :: rest) =
        ((dataRuns (some d) rest).1,
         Outcome.ok { body := d, cacheControl := maxAgeHeader (24 * 60 * 60) } ::
           (dataRuns (some d) rest).2) := rfl
    rw [hstep]
    refine ⟨ih.1, fun o ho => ?_⟩
    rcases List.mem_cons.mp ho with ho | ho
    · exact ho
    · exact ih.2 o ho

/-- C2: the top-tracks cache is filled at most once per process: once a `/`
request has succeeded with response `r`, the cache holds exactly `r`'s body,
and every later `/` request — for any number of requests, against any
upstreams — returns the identical response `r` and never mutates or
recomputes the cached value. -/
theorem data_fill_once (cache : Option Data) (s : Streams) (r : DataResponse)
    (h : (data cache s).2.1 = .ok r) (ss : List Streams) :
    (data cache s).1 = some r.body ∧
    (dataRuns ((data cache s).1) ss).1 = some r.body ∧
    ∀ o ∈ (dataRuns ((data cache s).1) ss).2, o = .ok r := by
  obtain ⟨hstate, hcc⟩ := data_ok_shape cache s r h
  rw [hstate]
  have hruns := dataRuns_cached r.body ss
  have hr : ({ body := r.body, cacheControl := maxAgeHeader (24 * 60 * 60) } :
      DataResponse) = r := by
    cases r
    simp_all
  refine ⟨rfl, hruns.1, fun o ho => ?_⟩
  rw [← hr]
  exact hruns.2 o ho

/-- Witness for C2: a concrete first fill from an empty upstream, followed
by two further requests; the cache still holds the first snapshot. -/
theorem data_fill_once_witness :
    (dataRuns ((data none emptyStreams).1) [emptyStreams, capStreams]).1 =
      some { short_term_top := [], mid_term_top := [], long_term_top := [] } :=
  (data_fill_once none emptyStreams
    { body := { short_term_top := [], mid_term_top := [], long_term_top := [] }
      cacheControl := maxAgeHeader (24 * 60 * 60) } rfl [emptyStreams, capStreams]).2.1

/-- A `/` request hitting an empty cache always drives all three window
fetches to completion (`join!` semantics), whatever their results. -/
theorem data_empty_fetches_all (s : Streams) :
    (data none s).2.2 = [TimeRange.shortTerm, TimeRange.mediumTerm, TimeRange.longTerm] := by
  cases hs : top_for_time_frame 10 (s .shortTerm) with
  | error e => simp [data, hs]
  | ok a =>
    cases hm : top_for_time_frame 10 (s .mediumTerm) with
    | error e => simp [data, hs, hm]
    | ok b =>
      cases hl : top_for_time_frame 10 (s .longTerm) with
      | error e => simp [data, hs, hm, hl]
      | ok c => simp [data, hs, hm, hl]

/-- C3: if any of the three windowed fetches fails during a `/` cache fill,
the handler returns an error, the cache remains empty (no partial fill),
the failing request itself fetched all three windows, and any subsequent
request (still on the empty cache) performs all three fetches again. -/
theorem data_fail_empty_retry (s : Streams)
    (h : isError (top_for_time_frame 10 (s .shortTerm)) = true ∨
         isError (top_for_time_frame 10 (s .mediumTerm)) = true ∨
         isError (top_for_time_frame 10 (s .longTerm)) = true) :
    Outcome.isErr (data none s).2.1 = true ∧
    (data none s).1 = none ∧
    (data none s).2.2 = [TimeRange.shortTerm, TimeRange.mediumTerm, TimeRange.longTerm] ∧
    ∀ s' : Streams, (data ((data none s).1) s').2.2 =
      [TimeRange.shortTerm, TimeRange.mediumTerm, TimeRange.longTerm] := by
  have key : Outcome.isErr (data none s).2.1 = true ∧ (data none s).1 = none := by
    cases hs : top_for_time_frame 10 (s .shortTerm) with
    | error e => constructor <;> simp [data, hs, Outcome.isErr]
    | ok a =>
      cases hm : top_for_time_frame 10 (s .mediumTerm) with
      | error e => constructor <;> simp [data, hs, hm, Outcome.isErr]
      | ok b =>
        cases hl : top_for_time_frame 10 (s .longTerm) with
        | error e => constructor <;> simp [data, hs, hm, hl, Outcome.isErr]
        | ok c =>
          exfalso
          rcases h with h | h | h <;> simp [hs, hm, hl, isError] at h
  refine ⟨key.1, key.2, data_empty_fetches_all s, fun s' => ?_⟩
  rw [key.2]
  exact data_empty_fetches_all s'

/-- Witness for C3: a concrete upstream whose short-term fetch fails — the
request errors and the cache stays empty. -/
theorem data_fail_empty_retry_witness :
    Outcome.isErr (data none failingStreams).2.1 = true ∧
    (data none failingStreams).1 = none :=
  ⟨(data_fail_empty_retry failingStreams (Or.inl rfl)).1,
   (data_fail_empty_retry failingStreams (Or.inl rfl)).2.1⟩

/-- `try_collect` over a stream of successes collects them all. -/
theorem tryCollect_length (l : List (Except String FullTrack))
    (h : ∀ x ∈ l, ∃ t, x = .ok t) :
    ∃ ts, tryCollect l = .ok ts ∧ ts.length = l.length := by
  induction l with
  | nil => exact ⟨[], rfl, rfl⟩
  | cons x rest ih =>
    obtain ⟨t, ht⟩ := h x (List.mem_cons_self x rest)
    subst ht
    obtain ⟨ts, hts, hlen⟩ := ih fun y hy => h y (List.mem_cons_of_mem _ hy)
    exact ⟨t :: ts, by simp [tryCollect, hts, Except.map], by simp [hlen]⟩

/-- C7: for every upstream whose three window streams each yield more than
the requested limit of 10 (successful) entries, the `/` cache fill succeeds
and each window sequence of the served body contains exactly 10 shaped
tracks. -/
theorem top_capped (s : Streams)
    (hlen : ∀ tr, 10 < (s tr).length)
    (hok : ∀ tr, ∀ x ∈ s tr, ∃ t, x = .ok t) :
    bodyLengths (data none s).2.1 = some (10, 10, 10) := by
  have key : ∀ tr, ∃ ts, top_for_time_frame 10 (s tr) = .ok ts ∧ ts.length = 10 := by
    intro tr
    obtain ⟨ts, hts, hl⟩ := tryCollect_length ((s tr).take 10)
      fun x hx => hok tr x (List.mem_of_mem_take hx)
    refine ⟨ts, hts, ?_⟩
    rw [hl, List.length_take]
    exact Nat.min_eq_left (Nat.le_of_lt (hlen tr))
  obtain ⟨as, ha, hal⟩ := key .shortTerm
  obtain ⟨bs, hb, hbl⟩ := key .mediumTerm
  obtain ⟨cs, hc, hcl⟩ := key .longTerm
  simp [data, bodyLengths, ha, hb, hc, hal, hbl, hcl]

/-- Witness for C7: a concrete upstream of 11 successful items per window
is served as exactly 10 tracks per window. -/
theorem top_capped_witness :
    bodyLengths (data none capStreams).2.1 = some (10, 10, 10) :=
  top_capped capStreams (fun _ => by simp [capStreams])
    fun _ x hx => ⟨sampleTrack, List.eq_of_mem_replicate hx⟩

end SpotifyMe
